import Mathlib

/-!
Verification development for the usage-accounting layer of the
pdf-read-avenia repository.

The usage-tracking core (event aggregation, idempotency guard, quota
evaluator, FX-cached cost resolver) is documented in
src/usage_tracking/README.md; its executable implementation is not part of
the source tree, so those components are modelled here from the
specification text, faithful to its words.  The FAL helper functions
(ensureFalConfigured, generateStyledVideoWithVeo) are embedded directly
from src/export/video/parts/utils.ts and src/export/video/parts/video.ts.
-/

namespace UsageTracking

/-- Calendar timestamp: year, month (1-12), day (1-31) and second of day.
Used for event timestamps, month boundaries and block windows. -/
structure Timestamp where
  year : Nat
  month : Nat
  day : Nat
  sec : Nat
  deriving DecidableEq, Repr

/-- Outcome of the provider call recorded on the event. -/
inductive Status where
  | success
  | error
  deriving DecidableEq, Repr

/-- Modelled from the spec: the UsageEvent record (README section A step 1,
spec section 3).  Monetary amounts are fixed-point minor units (cents);
costRefCents is the cost in the normalized reference currency. -/
structure UsageEvent where
  requestId : String
  userId : String
  timestamp : Timestamp
  inputTokens : Nat
  outputTokens : Nat
  totalTokens : Nat
  cachedTokens : Nat
  isCacheHit : Bool
  latencyMs : Nat
  status : Status
  costCents : Nat
  costRefCents : Nat
  deriving DecidableEq, Repr

/-- Modelled from the spec: the usage/financial/statistics counters shared by
the LifetimeAggregate and the MonthlyAggregate (spec section 3). -/
structure AggCounters where
  totalRequests : Nat
  inputTokens : Nat
  outputTokens : Nat
  totalTokens : Nat
  cachedTokens : Nat
  cacheHitCount : Nat
  costCents : Nat
  costRefCents : Nat
  errorCount : Nat
  lastErrorAt : Option Timestamp
  lastRequestAt : Option Timestamp
  deriving DecidableEq, Repr

/-- An aggregate before any event has been applied (lazy creation default). -/
def emptyAgg : AggCounters :=
  { totalRequests := 0, inputTokens := 0, outputTokens := 0, totalTokens := 0
    cachedTokens := 0, cacheHitCount := 0, costCents := 0, costRefCents := 0
    errorCount := 0, lastErrorAt := none, lastRequestAt := none }

/-- Modelled from the spec: one delta application of an event to an aggregate
(spec section 4.4 and section 8).  Cache-hit contribution is added only for
cache-hit events; error statistics are advanced only for error events. -/
def applyEventToAgg (e : UsageEvent) (a : AggCounters) : AggCounters :=
  { totalRequests := a.totalRequests + 1
    inputTokens := a.inputTokens + e.inputTokens
    outputTokens := a.outputTokens + e.outputTokens
    totalTokens := a.totalTokens + e.totalTokens
    cachedTokens := a.cachedTokens + (if e.isCacheHit then e.cachedTokens else 0)
    cacheHitCount := a.cacheHitCount + (if e.isCacheHit then 1 else 0)
    costCents := a.costCents + e.costCents
    costRefCents := a.costRefCents + e.costRefCents
    errorCount := a.errorCount + (if e.status = Status.error then 1 else 0)
    lastErrorAt := if e.status = Status.error then some e.timestamp else a.lastErrorAt
    lastRequestAt := some e.timestamp }

/-- Modelled from the spec: the persisted accounting state — DedupRecords
keyed by requestId, one LifetimeAggregate per user, one MonthlyAggregate per
user and calendar month (spec sections 3 and 6). -/
@[ext]
structure Store where
  dedup : String → Bool
  lifetime : String → AggCounters
  monthly : String → Nat → Nat → AggCounters

/-- The empty store: no dedup records, all aggregates at their lazy default. -/
def initStore : Store :=
  { dedup := fun _ => false
    lifetime := fun _ => emptyAgg
    monthly := fun _ _ _ => emptyAgg }

/-- Write the DedupRecord for a requestId (spec section 4.3). -/
def writeDedup (rid : String) (s : Store) : Store :=
  { s with dedup := fun r => if r = rid then true else s.dedup r }

/-- Modelled from the spec: the Aggregator applies the event delta to the
user's LifetimeAggregate and to the MonthlyAggregate selected by the event
timestamp's calendar month (spec section 4.4). -/
def applyDelta (e : UsageEvent) (s : Store) : Store :=
  { s with
    lifetime := fun u =>
      if u = e.userId then applyEventToAgg e (s.lifetime u) else s.lifetime u
    monthly := fun u y m =>
      if u = e.userId ∧ y = e.timestamp.year ∧ m = e.timestamp.month then
        applyEventToAgg e (s.monthly u y m)
      else s.monthly u y m }

/-- Modelled from the spec: one idempotency-guarded aggregation transaction
(spec sections 4.3 and 4.4).  Transactions are atomic and serializable, so a
concurrent schedule of submissions is modelled by the sequence of committed
transactions: if the DedupRecord exists the store is unchanged, otherwise the
DedupRecord is written and the delta applied in the same commit. -/
def processEvent (e : UsageEvent) (s : Store) : Store :=
  if s.dedup e.requestId then s else applyDelta e (writeDedup e.requestId s)

/-- Run a serial schedule of committed submissions. -/
def runEvents (es : List UsageEvent) (s : Store) : Store :=
  es.foldl (fun t e => processEvent e t) s

/-- Result of the idempotency guard (spec section 4.3). -/
inductive GuardResult where
  | applied
  | skipped
  | contentionExhausted
  deriving DecidableEq, Repr

/-- Outcome of guardAndApply: the result, the committed store, and how many
times applyFn was invoked (writes of contended attempts are discarded). -/
structure GuardOutcome where
  result : GuardResult
  store : Store
  applyCalls : Nat

/-- Modelled from the spec: the retry loop of the idempotency guard (spec
section 4.3).  Each attempt reads DedupRecord(rid); if present it returns
skipped with no side effect; if absent it stages the DedupRecord write plus
applyFn's writes and tries to commit.  The contention oracle says whether
commit attempt k fails; a failed attempt discards the staged writes and
retries; when fuel runs out the guard surfaces contentionExhausted with the
store unchanged. -/
def guardLoop (contention : Nat → Bool) (applyFn : Store → Store)
    (rid : String) (s : Store) : Nat → Nat → Nat → GuardOutcome
  | 0, _, calls => { result := GuardResult.contentionExhausted, store := s, applyCalls := calls }
  | Nat.succ fuel, k, calls =>
    if s.dedup rid then { result := GuardResult.skipped, store := s, applyCalls := calls }
    else
      let staged := applyFn (writeDedup rid s)
      if contention k then guardLoop contention applyFn rid s fuel (k + 1) (calls + 1)
      else { result := GuardResult.applied, store := staged, applyCalls := calls + 1 }

/-- Modelled from the spec: guardAndApply(requestId, applyFn) with a bounded
attempt count and a contention oracle (spec section 4.3). -/
def guardAndApply (maxAttempts : Nat) (contention : Nat → Bool)
    (rid : String) (applyFn : Store → Store) (s : Store) : GuardOutcome :=
  guardLoop contention applyFn rid s maxAttempts 0 0

/-- One write staged inside an aggregation transaction (spec section 4.4). -/
inductive WriteOp where
  | dedupMark (rid : String)
  | lifetimeDoc (uid : String) (a : AggCounters)
  | monthlyDoc (uid : String) (y : Nat) (m : Nat) (a : AggCounters)

/-- Apply one staged write to the store. -/
def applyWrite (s : Store) : WriteOp → Store
  | WriteOp.dedupMark rid => writeDedup rid s
  | WriteOp.lifetimeDoc uid a =>
    { s with lifetime := fun u => if u = uid then a else s.lifetime u }
  | WriteOp.monthlyDoc uid y m a =>
    { s with monthly := fun u y2 m2 =>
        if u = uid ∧ y2 = y ∧ m2 = m then a else s.monthly u y2 m2 }

/-- The three writes of one aggregation transaction, staged against the
pre-transaction store: the DedupRecord, the updated LifetimeAggregate and the
updated MonthlyAggregate (spec section 4.4). -/
def txWrites (e : UsageEvent) (s : Store) : List WriteOp :=
  [ WriteOp.dedupMark e.requestId,
    WriteOp.lifetimeDoc e.userId (applyEventToAgg e (s.lifetime e.userId)),
    WriteOp.monthlyDoc e.userId e.timestamp.year e.timestamp.month
      (applyEventToAgg e (s.monthly e.userId e.timestamp.year e.timestamp.month)) ]

/-- Commit a list of staged writes in order. -/
def commitTx (ws : List WriteOp) (s : Store) : Store :=
  ws.foldl applyWrite s

/-- Modelled from the spec: one aggregation transaction under fault
injection (spec sections 4.4, 5 and 8).  faultAt = some i injects a failure
after i writes have been staged but before the transaction commits; the
transaction is atomic, so a fault rolls every staged write back and the
store is unchanged.  faultAt = none commits all three writes together. -/
def runTxWithFault (faultAt : Option Nat) (e : UsageEvent) (s : Store) : Store :=
  if s.dedup e.requestId then s
  else
    match faultAt with
    | some _ => s
    | none => commitTx (txWrites e s) s

/-- First instant of the calendar month after (y, m). -/
def startOfNextMonth (y m : Nat) : Timestamp :=
  if 12 ≤ m then { year := y + 1, month := 1, day := 1, sec := 0 }
  else { year := y, month := m + 1, day := 1, sec := 0 }

/-- Gregorian leap-year test. -/
def isLeapYear (y : Nat) : Bool :=
  (y % 4 == 0 && y % 100 != 0) || y % 400 == 0

/-- Number of days in calendar month (y, m). -/
def daysInMonth (y m : Nat) : Nat :=
  if m = 2 then (if isLeapYear y then 29 else 28)
  else if m = 4 ∨ m = 6 ∨ m = 9 ∨ m = 11 then 30
  else 31

/-- First instant of the calendar day after (y, m, d). -/
def startOfNextDay (y m d : Nat) : Timestamp :=
  if d < daysInMonth y m then { year := y, month := m, day := d + 1, sec := 0 }
  else startOfNextMonth y m

/-- Modelled from the spec: the throttling decision produced by the Quota
Evaluator (spec section 4.5). -/
structure ThrottleDecision where
  isThrottled : Bool
  blockReason : Option String
  blockedUntil : Option Timestamp
  softLimitReached : Bool
  deriving DecidableEq, Repr

/-- Modelled from the spec: the user's configured limits in the reference
currency, in minor units, plus the soft-limit fraction softLimitNum over
softLimitDen (e.g. 4 over 5 for 80 percent) (spec section 4.5). -/
structure QuotaConfig where
  monthlyCostLimitCents : Option Nat
  dailyCostLimitCents : Option Nat
  softLimitNum : Nat
  softLimitDen : Nat
  deriving DecidableEq, Repr

/-- The view of the updated aggregates the Quota Evaluator reads: the active
calendar date and the cumulative reference-currency cost of the active month
and day scopes (spec section 4.5). -/
structure AggSnapshot where
  year : Nat
  month : Nat
  day : Nat
  monthCostRefCents : Nat
  dayCostRefCents : Nat
  deriving DecidableEq, Repr

/-- Does the cumulative cost exceed the configured limit, when one is set? -/
def exceeds (cost : Nat) : Option Nat → Bool
  | some limit => limit < cost
  | none => false

/-- Has the cumulative cost reached the soft fraction of the hard limit? -/
def softReached (num den cost : Nat) : Option Nat → Bool
  | some limit => limit * num ≤ cost * den
  | none => false

/-- Modelled from the spec: evaluate(aggregate, quotaConfig), a pure function
of the updated aggregate snapshot and the quota configuration (spec section
4.5).  If the cumulative cost of an active scope exceeds its limit the user
is throttled with blockReason naming the scope and blockedUntil set to the
start of the next scope window; the soft-limit flag only warns. -/
def evaluate (snap : AggSnapshot) (cfg : QuotaConfig) : ThrottleDecision :=
  let soft := softReached cfg.softLimitNum cfg.softLimitDen
    snap.monthCostRefCents cfg.monthlyCostLimitCents
  if exceeds snap.dayCostRefCents cfg.dailyCostLimitCents then
    { isThrottled := true, blockReason := some "daily_limit"
      blockedUntil := some (startOfNextDay snap.year snap.month snap.day)
      softLimitReached := soft }
  else if exceeds snap.monthCostRefCents cfg.monthlyCostLimitCents then
    { isThrottled := true, blockReason := some "monthly_limit"
      blockedUntil := some (startOfNextMonth snap.year snap.month)
      softLimitReached := soft }
  else
    { isThrottled := false, blockReason := none, blockedUntil := none
      softLimitReached := soft }

/-- One cached exchange rate: rate in milli-units of quote currency per unit
of base currency, and the instant (seconds) it was fetched. -/
structure FxEntry where
  rate : Nat
  fetchedAt : Nat
  deriving DecidableEq, Repr

/-- Modelled from the spec: the process-wide FX cache keyed by currency pair,
plus a counter of network fetches performed (spec section 4.2). -/
structure FxState where
  cache : String × String → Option FxEntry
  fetchCount : Nat

/-- An FX state with nothing cached and no fetches performed. -/
def initFxState : FxState :=
  { cache := fun _ => none, fetchCount := 0 }

/-- Staleness threshold of the FX cache: 24 hours, in seconds. -/
def fxStaleSeconds : Nat := 86400

/-- Failure of cost resolution when no rate is cached or fetchable. -/
inductive FxError where
  | fxUnavailable
  deriving DecidableEq, Repr

/-- Record a fresh fetch result in the cache (replacing the pair's entry)
and count the network fetch. -/
def cacheInsert (pair : String × String) (entry : FxEntry) (st : FxState) : FxState :=
  { cache := fun p => if p = pair then some entry else st.cache p
    fetchCount := st.fetchCount + 1 }

/-- Modelled from the spec: rate lookup of the Cost Resolver (spec section
4.2).  A cached entry younger than the staleness threshold is served with no
network fetch; on a miss or stale entry a fetch is attempted (fetchResult is
the oracle for its outcome): success replaces the cache entry, failure serves
the last-known rate if one exists and fails with FxUnavailable only when no
rate has ever been cached for the pair. -/
def resolveRate (fetchResult : Option Nat) (now : Nat) (pair : String × String)
    (st : FxState) : Except FxError FxEntry × FxState :=
  match st.cache pair with
  | some entry =>
    if now ≤ entry.fetchedAt + fxStaleSeconds then (Except.ok entry, st)
    else
      match fetchResult with
      | some r =>
        (Except.ok { rate := r, fetchedAt := now },
         cacheInsert pair { rate := r, fetchedAt := now } st)
      | none => (Except.ok entry, { st with fetchCount := st.fetchCount + 1 })
  | none =>
    match fetchResult with
    | some r =>
      (Except.ok { rate := r, fetchedAt := now },
       cacheInsert pair { rate := r, fetchedAt := now } st)
    | none =>
      (Except.error FxError.fxUnavailable, { st with fetchCount := st.fetchCount + 1 })

/-- Modelled from the spec: resolveCost converts a native-currency cost into
the reference currency through the cached rate, returning the cost pair and
the FX snapshot used, or FxUnavailable (spec section 4.2). -/
def resolveCost (fetchResult : Option Nat) (now : Nat) (pair : String × String)
    (costNativeCents : Nat) (st : FxState) :
    Except FxError (Nat × Nat × FxEntry) × FxState :=
  match resolveRate fetchResult now pair st with
  | (Except.ok entry, st2) =>
    (Except.ok (costNativeCents, costNativeCents * 1000 / entry.rate, entry), st2)
  | (Except.error e2, st2) => (Except.error e2, st2)

/-- Firestore document path of a raw UsageEvent audit record, from
src/usage_tracking/README.md section B: raw events live at
usage_events/YYYY-MM-DD/events/requestId, because Firestore requires
collection and document segments to alternate, so the day document carries
an events subcollection. -/
def usageEventDocPath (day : String) (requestId : String) : List String :=
  ["usage_events", day, "events", requestId]

end UsageTracking

namespace VideoExport

/-- Module-level FAL configuration state of src/export/video/parts/utils.ts:
the falConfigured flag, together with a count of fal.config invocations in
the process (the side effect of interest). -/
structure FalState where
  falConfigured : Bool
  configCount : Nat
  deriving DecidableEq, Repr

/-- State at process start: not configured, fal.config never invoked. -/
def initFalState : FalState :=
  { falConfigured := false, configCount := 0 }

/-- Embedding of ensureFalConfigured (src/export/video/parts/utils.ts lines
26-34).  key is the value getFalKey() returns at this call: if already
configured, return; if the key is empty, return without configuring;
otherwise invoke fal.config and set falConfigured. -/
def ensureFalConfigured (key : String) (st : FalState) : FalState :=
  if st.falConfigured then st
  else if key = "" then st
  else { falConfigured := true, configCount := st.configCount + 1 }

/-- A sequence of ensureFalConfigured calls within one process, with the key
each call observes. -/
def runFalCalls (keys : List String) (st : FalState) : FalState :=
  keys.foldl (fun s k => ensureFalConfigured k s) st

/-- Outcome of one fal.subscribe call: ok carries the video URL extracted
from the response (none when the response has no usable URL), err models the
call throwing. -/
inductive FalOutcome where
  | ok (url : Option String)
  | err (msg : String)
  deriving DecidableEq, Repr

/-- The resolved value of generateStyledVideoWithVeo
(src/export/video/parts/video.ts). -/
structure VideoResult where
  outputVideoUrl : String
  providerText : Option String
  providerStatus : Option Nat
  usedFallback : Bool
  deriving DecidableEq, Repr

/-- Embedding of generateStyledVideoWithVeo (src/export/video/parts/video.ts
lines 36-237).  falKey is getFalKey(); enableBackgroundSwap and
babyBackgroundImageUrl come from the environment; personOutcome and
backgroundOutcome are the behaviors of the two fal.subscribe calls.  A
missing key or a throwing person swap resolves to the reference URL with
usedFallback true; a throwing or URL-less background swap is caught inside
and the person-swap output is returned with usedFallback false. -/
def generateStyledVideoWithVeo (falKey : String) (enableBackgroundSwap : Bool)
    (babyBackgroundImageUrl : String) (personOutcome : FalOutcome)
    (backgroundOutcome : FalOutcome) (referenceVideoUrl : String) : VideoResult :=
  if falKey = "" then
    { outputVideoUrl := referenceVideoUrl
      providerText := some "Fallback video URL used because FAL_KEY is missing."
      providerStatus := none, usedFallback := true }
  else
    match personOutcome with
    | FalOutcome.err msg =>
      { outputVideoUrl := referenceVideoUrl
        providerText := some ("FAL request failed: " ++ msg)
        providerStatus := none, usedFallback := true }
    | FalOutcome.ok none =>
      { outputVideoUrl := referenceVideoUrl
        providerText := some "FAL fallback used (person swap response missing video URL)"
        providerStatus := some 200, usedFallback := true }
    | FalOutcome.ok (some personUrl) =>
      if enableBackgroundSwap = true ∧ babyBackgroundImageUrl ≠ "" then
        match backgroundOutcome with
        | FalOutcome.ok (some bgUrl) =>
          { outputVideoUrl := bgUrl, providerText := none
            providerStatus := some 200, usedFallback := false }
        | FalOutcome.ok none =>
          { outputVideoUrl := personUrl
            providerText := some "Background swap skipped: response missing video URL, returning person swap output."
            providerStatus := some 200, usedFallback := false }
        | FalOutcome.err _ =>
          { outputVideoUrl := personUrl
            providerText := some "Background swap failed; returning person swap output."
            providerStatus := some 200, usedFallback := false }
      else
        { outputVideoUrl := personUrl, providerText := none
          providerStatus := some 200, usedFallback := false }

end VideoExport

namespace UsageTracking

/-- A sample successful cache-hit event used by concrete witnesses. -/
def sampleHitEvent : UsageEvent :=
  { requestId := "req_hit_1", userId := "user_1"
    timestamp := { year := 2026, month := 1, day := 11, sec := 45250 }
    inputTokens := 1234, outputTokens := 2100, totalTokens := 3334
    cachedTokens := 500, isCacheHit := true, latencyMs := 1520
    status := Status.success, costCents := 240, costRefCents := 8 }

/-- A sample successful non-cache-hit event used by concrete witnesses. -/
def sampleMissEvent : UsageEvent :=
  { requestId := "req_miss_1", userId := "user_1"
    timestamp := { year := 2026, month := 1, day := 11, sec := 45300 }
    inputTokens := 100, outputTokens := 200, totalTokens := 300
    cachedTokens := 0, isCacheHit := false, latencyMs := 900
    status := Status.success, costCents := 40, costRefCents := 2 }

/-- A sample error event with zero cost used by concrete witnesses. -/
def sampleErrorEvent : UsageEvent :=
  { requestId := "req_err_1", userId := "user_1"
    timestamp := { year := 2026, month := 1, day := 11, sec := 46000 }
    inputTokens := 50, outputTokens := 0, totalTokens := 50
    cachedTokens := 0, isCacheHit := false, latencyMs := 700
    status := Status.error, costCents := 0, costRefCents := 0 }

/-- The event of the quota-transition scenario: it costs 15.00 in the
reference currency (1500 minor units). -/
def quotaEvent : UsageEvent :=
  { requestId := "req_quota_1", userId := "user_q"
    timestamp := { year := 2026, month := 1, day := 11, sec := 0 }
    inputTokens := 10, outputTokens := 10, totalTokens := 20
    cachedTokens := 0, isCacheHit := false, latencyMs := 100
    status := Status.success, costCents := 48150, costRefCents := 1500 }

/-- The monthly aggregate of the quota-transition scenario: cumulative cost
190.00 in the reference currency (19000 minor units). -/
def quotaAgg : AggCounters :=
  { emptyAgg with costRefCents := 19000, totalRequests := 12 }

/-- The quota configuration of the quota-transition scenario: monthly cost
limit 200.00 reference currency (20000 minor units), no daily limit, soft
limit at 80 percent. -/
def quotaCfg : QuotaConfig :=
  { monthlyCostLimitCents := some 20000, dailyCostLimitCents := none
    softLimitNum := 4, softLimitDen := 5 }

/-- An FX state whose USD-TRY entry was fetched successfully at second 1000,
after exactly one network fetch. -/
def sampleFxState : FxState :=
  { cache := fun p =>
      if p = ("USD", "TRY") then some { rate := 32100, fetchedAt := 1000 } else none
    fetchCount := 1 }

theorem processEvent_of_dedup (e : UsageEvent) (s : Store)
    (h : s.dedup e.requestId = true) : processEvent e s = s := by
  simp [processEvent, h]

theorem dedup_after_processEvent (e : UsageEvent) (s : Store) :
    (processEvent e s).dedup e.requestId = true := by
  by_cases h : s.dedup e.requestId = true
  · simp [processEvent, h]
  · have h2 : s.dedup e.requestId = false := by simpa using h
    simp [processEvent, h2, applyDelta, writeDedup]

theorem runEvents_cons (e : UsageEvent) (es : List UsageEvent) (s : Store) :
    runEvents (e :: es) s = runEvents es (processEvent e s) := rfl

theorem runEvents_replicate_of_dedup (e : UsageEvent) (n : Nat) (s : Store)
    (h : s.dedup e.requestId = true) :
    runEvents (List.replicate n e) s = s := by
  induction n with
  | zero => rfl
  | succ k ih =>
    rw [List.replicate_succ, runEvents_cons, processEvent_of_dedup e s h]
    exact ih

theorem processEvent_of_fresh (e : UsageEvent) (s : Store)
    (h : s.dedup e.requestId = false) :
    processEvent e s = applyDelta e (writeDedup e.requestId s) := by
  simp [processEvent, h]


/-- C1: submitting the same UsageEvent (same requestId) N times, in any
serial order of the committed transactions (concurrent attempts race on the
atomic read-check-write transaction, so every concurrent schedule is some
serialization), results in exactly one delta application to the user's
LifetimeAggregate and MonthlyAggregate: the final store equals the store
after a single submission, independent of N. -/
theorem submission_idempotent (e : UsageEvent) (s : Store) (N : Nat)
    (hN : 1 ≤ N) (hfresh : s.dedup e.requestId = false) :
    runEvents (List.replicate N e) s = processEvent e s ∧
    (runEvents (List.replicate N e) s).lifetime e.userId
      = applyEventToAgg e (s.lifetime e.userId) ∧
    (runEvents (List.replicate N e) s).monthly e.userId
        e.timestamp.year e.timestamp.month
      = applyEventToAgg e (s.monthly e.userId e.timestamp.year e.timestamp.month) := by
  cases N with
  | zero => omega
  | succ n =>
    have h1 : runEvents (List.replicate (n + 1) e) s = processEvent e s := by
      rw [List.replicate_succ, runEvents_cons]
      exact runEvents_replicate_of_dedup e n (processEvent e s)
        (dedup_after_processEvent e s)
    refine ⟨h1, ?_, ?_⟩
    · rw [h1, processEvent_of_fresh e s hfresh]
      simp [applyDelta, writeDedup]
    · rw [h1, processEvent_of_fresh e s hfresh]
      simp [applyDelta, writeDedup]

/-- C1 witness: three submissions of a concrete event to the empty store
leave exactly the state of one submission, with both aggregates incremented
once. -/
theorem submission_idempotent_witness :
    runEvents (List.replicate 3 sampleHitEvent) initStore
      = processEvent sampleHitEvent initStore ∧
    (runEvents (List.replicate 3 sampleHitEvent) initStore).lifetime
        sampleHitEvent.userId
      = applyEventToAgg sampleHitEvent (initStore.lifetime sampleHitEvent.userId) ∧
    (runEvents (List.replicate 3 sampleHitEvent) initStore).monthly
        sampleHitEvent.userId sampleHitEvent.timestamp.year
        sampleHitEvent.timestamp.month
      = applyEventToAgg sampleHitEvent
          (initStore.monthly sampleHitEvent.userId sampleHitEvent.timestamp.year
            sampleHitEvent.timestamp.month) :=
  submission_idempotent sampleHitEvent initStore 3 (by decide) rfl

theorem guardLoop_skipped (c : Nat → Bool) (f : Store → Store) (rid : String)
    (s : Store) (fuel k calls : Nat) (h : s.dedup rid = true) :
    guardLoop c f rid s (fuel + 1) k calls
      = { result := GuardResult.skipped, store := s, applyCalls := calls } := by
  simp [guardLoop, h]

theorem guardLoop_applied (c : Nat → Bool) (f : Store → Store) (rid : String)
    (s : Store) (fuel k calls : Nat) (hd : s.dedup rid = false)
    (hc : c k = false) :
    guardLoop c f rid s (fuel + 1) k calls
      = { result := GuardResult.applied, store := f (writeDedup rid s)
          applyCalls := calls + 1 } := by
  simp [guardLoop, hd, hc]

theorem guardLoop_exhausted (c : Nat → Bool) (f : Store → Store) (rid : String)
    (s : Store) : ∀ fuel k calls,
    (guardLoop c f rid s fuel k calls).result = GuardResult.contentionExhausted →
    (guardLoop c f rid s fuel k calls).store = s ∧
    (1 ≤ fuel → s.dedup rid = false ∧ ∀ j, j < fuel → c (k + j) = true) := by
  intro fuel
  induction fuel with
  | zero =>
    intro k calls _
    exact ⟨rfl, fun h1 => absurd h1 (by omega)⟩
  | succ n ih =>
    intro k calls hres
    by_cases hd : s.dedup rid = true
    · rw [guardLoop_skipped c f rid s n k calls hd] at hres
      exact absurd hres (by simp)
    · have hd2 : s.dedup rid = false := by simpa using hd
      by_cases hc : c k = true
      · have hstep : guardLoop c f rid s (n + 1) k calls
            = guardLoop c f rid s n (k + 1) (calls + 1) := by
          simp [guardLoop, hd2, hc]
        rw [hstep] at hres ⊢
        have h2 := ih (k + 1) (calls + 1) hres
        refine ⟨h2.1, fun _ => ⟨hd2, fun j hj => ?_⟩⟩
        cases j with
        | zero => simpa using hc
        | succ i =>
          have h3 := (h2.2 (by omega)).2 i (by omega)
          have h4 : k + 1 + i = k + (i + 1) := by omega
          rw [h4] at h3
          exact h3
      · have hc2 : c k = false := by simpa using hc
        rw [guardLoop_applied c f rid s n k calls hd2 hc2] at hres
        exact absurd hres (by simp)

/-- C2: guardAndApply runs the read-check-write transaction with bounded
retries: when the DedupRecord exists it returns skipped with the store
untouched and applyFn never invoked; when it does not exist and the first
commit is uncontended it writes the DedupRecord, invokes applyFn once and
commits, returning applied; and contentionExhausted is surfaced only when
every one of the maxAttempts commit attempts was contended, with the store
unchanged. -/
theorem guardAndApply_spec (maxAttempts : Nat) (contention : Nat → Bool)
    (rid : String) (applyFn : Store → Store) (s : Store)
    (hA : 1 ≤ maxAttempts) :
    (s.dedup rid = true →
      guardAndApply maxAttempts contention rid applyFn s
        = { result := GuardResult.skipped, store := s, applyCalls := 0 }) ∧
    (s.dedup rid = false → contention 0 = false →
      guardAndApply maxAttempts contention rid applyFn s
        = { result := GuardResult.applied
            store := applyFn (writeDedup rid s), applyCalls := 1 }) ∧
    ((guardAndApply maxAttempts contention rid applyFn s).result
        = GuardResult.contentionExhausted →
      (guardAndApply maxAttempts contention rid applyFn s).store = s ∧
      s.dedup rid = false ∧ ∀ j, j < maxAttempts → contention j = true) := by
  cases maxAttempts with
  | zero => omega
  | succ n =>
    refine ⟨fun hd => ?_, fun hd hc => ?_, fun hres => ?_⟩
    · exact guardLoop_skipped contention applyFn rid s n 0 0 hd
    · exact guardLoop_applied contention applyFn rid s n 0 0 hd hc
    · have h2 := guardLoop_exhausted contention applyFn rid s (n + 1) 0 0 hres
      refine ⟨h2.1, (h2.2 (by omega)).1, fun j hj => ?_⟩
      have h3 := (h2.2 (by omega)).2 j hj
      simpa using h3

/-- C2 witness: with two attempts and no contention, a concrete guarded
apply is skipped on a present DedupRecord with zero applyFn invocations, and
applied exactly once on an absent one. -/
theorem guardAndApply_spec_witness :
    (guardAndApply 2 (fun _ => false) "req_hit_1" (applyDelta sampleHitEvent)
        (writeDedup "req_hit_1" initStore)
      = { result := GuardResult.skipped
          store := writeDedup "req_hit_1" initStore, applyCalls := 0 }) ∧
    (guardAndApply 2 (fun _ => false) "req_hit_1" (applyDelta sampleHitEvent)
        initStore
      = { result := GuardResult.applied
          store := applyDelta sampleHitEvent (writeDedup "req_hit_1" initStore)
          applyCalls := 1 }) := by
  constructor
  · exact (guardAndApply_spec 2 (fun _ => false) "req_hit_1"
      (applyDelta sampleHitEvent) (writeDedup "req_hit_1" initStore)
      (by decide)).1 (by simp [writeDedup])
  · exact ((guardAndApply_spec 2 (fun _ => false) "req_hit_1"
      (applyDelta sampleHitEvent) initStore (by decide)).2.1) rfl rfl

theorem commitTx_txWrites (e : UsageEvent) (s : Store) :
    commitTx (txWrites e s) s = applyDelta e (writeDedup e.requestId s) := by
  simp only [commitTx, txWrites, List.foldl]
  ext u y m
  · rfl
  · show (if u = e.userId then applyEventToAgg e (s.lifetime e.userId)
        else s.lifetime u)
      = (applyDelta e (writeDedup e.requestId s)).lifetime u
    by_cases h : u = e.userId
    · subst h
      simp [applyDelta, writeDedup]
    · simp [applyDelta, writeDedup, h]
  · show (if u = e.userId ∧ y = e.timestamp.year ∧ m = e.timestamp.month then
        applyEventToAgg e (s.monthly e.userId e.timestamp.year e.timestamp.month)
      else s.monthly u y m)
      = (applyDelta e (writeDedup e.requestId s)).monthly u y m
    by_cases h : u = e.userId ∧ y = e.timestamp.year ∧ m = e.timestamp.month
    · obtain ⟨h1, h2, h3⟩ := h
      subst h1; subst h2; subst h3
      simp [applyDelta, writeDedup]
    · simp [applyDelta, writeDedup, h]

/-- C3: the three writes of one aggregation transaction — DedupRecord,
LifetimeAggregate and MonthlyAggregate — commit atomically.  A fault injected
at any point before commit (in particular between the DedupRecord write and
the aggregate writes, faultAt = some 1) rolls everything back: the
DedupRecord does not exist afterwards and both aggregates are unchanged;
a fault-free run persists all three writes together and equals the guarded
processEvent transition. -/
theorem tx_atomicity (e : UsageEvent) (s : Store)
    (hfresh : s.dedup e.requestId = false) :
    (∀ i : Nat, runTxWithFault (some i) e s = s) ∧
    ((runTxWithFault (some 1) e s).dedup e.requestId = false) ∧
    (runTxWithFault none e s = processEvent e s) ∧
    ((runTxWithFault none e s).dedup e.requestId = true) ∧
    ((runTxWithFault none e s).lifetime e.userId
      = applyEventToAgg e (s.lifetime e.userId)) ∧
    ((runTxWithFault none e s).monthly e.userId e.timestamp.year e.timestamp.month
      = applyEventToAgg e (s.monthly e.userId e.timestamp.year e.timestamp.month)) := by
  have hfault : ∀ i : Nat, runTxWithFault (some i) e s = s := by
    intro i
    simp [runTxWithFault, hfresh]
  have hnone : runTxWithFault none e s = processEvent e s := by
    rw [processEvent_of_fresh e s hfresh]
    simp [runTxWithFault, hfresh]
    exact commitTx_txWrites e s
  refine ⟨hfault, ?_, hnone, ?_, ?_, ?_⟩
  · rw [hfault 1]; exact hfresh
  · rw [hnone]; exact dedup_after_processEvent e s
  · rw [hnone, processEvent_of_fresh e s hfresh]
    simp [applyDelta, writeDedup]
  · rw [hnone, processEvent_of_fresh e s hfresh]
    simp [applyDelta, writeDedup]

/-- C3 witness: against the empty store, a fault injected between the
DedupRecord write and the aggregate writes leaves the store untouched and
the DedupRecord absent, while the fault-free transaction equals one guarded
submission. -/
theorem tx_atomicity_witness :
    runTxWithFault (some 1) sampleMissEvent initStore = initStore ∧
    (runTxWithFault (some 1) sampleMissEvent initStore).dedup
        sampleMissEvent.requestId = false ∧
    runTxWithFault none sampleMissEvent initStore
      = processEvent sampleMissEvent initStore ∧
    (runTxWithFault none sampleMissEvent initStore).dedup
        sampleMissEvent.requestId = true := by
  have h := tx_atomicity sampleMissEvent initStore rfl
  exact ⟨h.1 1, h.2.1, h.2.2.1, h.2.2.2.1⟩

/-- C4: with a monthly cost limit of 200.00 reference currency and a user at
190.00 cumulative monthly cost, applying an event costing 15.00 makes the
pure evaluator return isThrottled = true, blockReason monthly_limit and
blockedUntil the first instant of the next calendar month. -/
theorem monthly_quota_transition :
    evaluate
      { year := 2026, month := 1, day := 11
        monthCostRefCents := (applyEventToAgg quotaEvent quotaAgg).costRefCents
        dayCostRefCents := 0 } quotaCfg
      = { isThrottled := true, blockReason := some "monthly_limit"
          blockedUntil := some { year := 2026, month := 2, day := 1, sec := 0 }
          softLimitReached := true } := by
  rfl

theorem fresh_entry_served (st : FxState) (pair : String × String)
    (entry : FxEntry) (hc : st.cache pair = some entry) (f : Option Nat)
    (t : Nat) (ht : t ≤ entry.fetchedAt + fxStaleSeconds) :
    resolveRate f t pair st = (Except.ok entry, st) := by
  simp [resolveRate, hc, ht]

/-- C5: with a successfully fetched cache entry for a pair, any resolution
within 24 hours serves the cached rate with no network fetch (the state,
including the fetch counter, is unchanged, so a second such resolution
fetches nothing either); a resolution 24 hours and 1 second after the fetch
performs exactly one fresh fetch; on fetch failure the last-known entry is
served whenever one exists; and resolveCost fails with FxUnavailable only
when nothing has ever been cached for the pair and the fetch failed. -/
theorem fx_cache_reuse (st : FxState) (pair : String × String)
    (entry : FxEntry) (hc : st.cache pair = some entry) :
    (∀ f1 f2 t1 t2, t1 ≤ entry.fetchedAt + fxStaleSeconds →
      t2 ≤ entry.fetchedAt + fxStaleSeconds →
      resolveRate f1 t1 pair st = (Except.ok entry, st) ∧
      resolveRate f2 t2 pair ((resolveRate f1 t1 pair st).2)
        = (Except.ok entry, st)) ∧
    (∀ f, (resolveRate f (entry.fetchedAt + fxStaleSeconds + 1) pair st).2.fetchCount
      = st.fetchCount + 1) ∧
    (∀ t, (resolveRate none t pair st).1 = Except.ok entry) ∧
    (∀ (st2 : FxState) (f : Option Nat) (t c : Nat),
      (resolveCost f t pair c st2).1 = Except.error FxError.fxUnavailable →
      st2.cache pair = none ∧ f = none) := by
  refine ⟨?_, ?_, ?_, ?_⟩
  · intro f1 f2 t1 t2 h1 h2
    have hone := fresh_entry_served st pair entry hc f1 t1 h1
    refine ⟨hone, ?_⟩
    rw [hone]
    exact fresh_entry_served st pair entry hc f2 t2 h2
  · intro f
    have hstale : ¬ (entry.fetchedAt + fxStaleSeconds + 1
        ≤ entry.fetchedAt + fxStaleSeconds) := by omega
    cases f with
    | some r => simp [resolveRate, hc, hstale, cacheInsert]
    | none => simp [resolveRate, hc, hstale]
  · intro t
    by_cases ht : t ≤ entry.fetchedAt + fxStaleSeconds
    · simp [resolveRate, hc, ht]
    · simp [resolveRate, hc, ht]
  · intro st2 f t c hres
    cases hcc : st2.cache pair with
    | some e2 =>
      exfalso
      by_cases ht : t ≤ e2.fetchedAt + fxStaleSeconds
      · simp [resolveCost, resolveRate, hcc, ht] at hres
      · cases f with
        | some r => simp [resolveCost, resolveRate, hcc, ht] at hres
        | none => simp [resolveCost, resolveRate, hcc, ht] at hres
    | none =>
      cases f with
      | some r =>
        exfalso
        simp [resolveCost, resolveRate, hcc] at hres
      | none => exact ⟨by simp [hcc], rfl⟩

/-- C5 witness: on a concrete state with a USD-TRY rate fetched at second
1000, a resolution at second 5000 serves the cache unchanged, a resolution
1 second past the 24-hour threshold performs exactly one fetch, and a
failing fetch still serves the last-known entry. -/
theorem fx_cache_reuse_witness :
    (resolveRate none 5000 ("USD", "TRY") sampleFxState
      = (Except.ok { rate := 32100, fetchedAt := 1000 }, sampleFxState)) ∧
    ((resolveRate (some 33000) (1000 + fxStaleSeconds + 1) ("USD", "TRY")
        sampleFxState).2.fetchCount = sampleFxState.fetchCount + 1) ∧
    ((resolveRate none 90000 ("USD", "TRY") sampleFxState).1
      = Except.ok { rate := 32100, fetchedAt := 1000 }) := by
  have h := fx_cache_reuse sampleFxState ("USD", "TRY")
    { rate := 32100, fetchedAt := 1000 } rfl
  exact ⟨(h.1 none none 5000 5000 (by decide) (by decide)).1,
    h.2.1 (some 33000), h.2.2.1 90000⟩

/-- C6: an event with isCacheHit = true increments cacheHitCount by exactly
1 and cachedTokens by exactly the event's cached-token count in the user's
LifetimeAggregate and in the matching MonthlyAggregate, while an event with
isCacheHit = false leaves cacheHitCount and cachedTokens unchanged in every
aggregate of the store. -/
theorem cache_hit_accounting (e : UsageEvent) (s : Store) (u : String)
    (y m : Nat) :
    (e.isCacheHit = true →
      ((applyDelta e s).lifetime e.userId).cacheHitCount
        = (s.lifetime e.userId).cacheHitCount + 1 ∧
      ((applyDelta e s).lifetime e.userId).cachedTokens
        = (s.lifetime e.userId).cachedTokens + e.cachedTokens ∧
      ((applyDelta e s).monthly e.userId e.timestamp.year e.timestamp.month).cacheHitCount
        = (s.monthly e.userId e.timestamp.year e.timestamp.month).cacheHitCount + 1 ∧
      ((applyDelta e s).monthly e.userId e.timestamp.year e.timestamp.month).cachedTokens
        = (s.monthly e.userId e.timestamp.year e.timestamp.month).cachedTokens
            + e.cachedTokens) ∧
    (e.isCacheHit = false →
      ((applyDelta e s).lifetime u).cacheHitCount = (s.lifetime u).cacheHitCount ∧
      ((applyDelta e s).lifetime u).cachedTokens = (s.lifetime u).cachedTokens ∧
      ((applyDelta e s).monthly u y m).cacheHitCount
        = (s.monthly u y m).cacheHitCount ∧
      ((applyDelta e s).monthly u y m).cachedTokens
        = (s.monthly u y m).cachedTokens) := by
  constructor
  · intro h
    refine ⟨?_, ?_, ?_, ?_⟩ <;> simp [applyDelta, applyEventToAgg, h]
  · intro h
    by_cases hu : u = e.userId
    · subst hu
      by_cases hym : y = e.timestamp.year ∧ m = e.timestamp.month
      · obtain ⟨h2, h3⟩ := hym
        subst h2; subst h3
        refine ⟨?_, ?_, ?_, ?_⟩ <;> simp [applyDelta, applyEventToAgg, h]
      · refine ⟨?_, ?_, ?_, ?_⟩ <;> simp [applyDelta, applyEventToAgg, h, hym]
    · refine ⟨?_, ?_, ?_, ?_⟩ <;> simp [applyDelta, applyEventToAgg, h, hu]

/-- C6 witness: a concrete cache-hit event adds 1 hit and its 500 cached
tokens to the lifetime aggregate, and a concrete non-hit event leaves the
cached-token counters untouched. -/
theorem cache_hit_accounting_witness :
    ((applyDelta sampleHitEvent initStore).lifetime sampleHitEvent.userId).cacheHitCount
      = (initStore.lifetime sampleHitEvent.userId).cacheHitCount + 1 ∧
    ((applyDelta sampleHitEvent initStore).lifetime sampleHitEvent.userId).cachedTokens
      = (initStore.lifetime sampleHitEvent.userId).cachedTokens
          + sampleHitEvent.cachedTokens ∧
    ((applyDelta sampleMissEvent initStore).lifetime "user_1").cacheHitCount
      = (initStore.lifetime "user_1").cacheHitCount ∧
    ((applyDelta sampleMissEvent initStore).lifetime "user_1").cachedTokens
      = (initStore.lifetime "user_1").cachedTokens := by
  have h1 := (cache_hit_accounting sampleHitEvent initStore "user_1" 2026 1).1 rfl
  have h2 := (cache_hit_accounting sampleMissEvent initStore "user_1" 2026 1).2 rfl
  exact ⟨h1.1, h1.2.1, h2.1, h2.2.1⟩

/-- C7: an event with status = error and zero cost still increments
totalRequests and errorCount by 1 in the user's LifetimeAggregate and in the
matching MonthlyAggregate, and sets lastErrorAt to the event's timestamp —
error events count as requests. -/
theorem error_event_accounting (e : UsageEvent) (s : Store)
    (he : e.status = Status.error) (_hc : e.costCents = 0) :
    ((applyDelta e s).lifetime e.userId).totalRequests
      = (s.lifetime e.userId).totalRequests + 1 ∧
    ((applyDelta e s).lifetime e.userId).errorCount
      = (s.lifetime e.userId).errorCount + 1 ∧
    ((applyDelta e s).lifetime e.userId).lastErrorAt = some e.timestamp ∧
    ((applyDelta e s).monthly e.userId e.timestamp.year e.timestamp.month).totalRequests
      = (s.monthly e.userId e.timestamp.year e.timestamp.month).totalRequests + 1 ∧
    ((applyDelta e s).monthly e.userId e.timestamp.year e.timestamp.month).errorCount
      = (s.monthly e.userId e.timestamp.year e.timestamp.month).errorCount + 1 ∧
    ((applyDelta e s).monthly e.userId e.timestamp.year e.timestamp.month).lastErrorAt
      = some e.timestamp := by
  refine ⟨?_, ?_, ?_, ?_, ?_, ?_⟩ <;> simp [applyDelta, applyEventToAgg, he]

/-- C7 witness: a concrete zero-cost error event increments totalRequests
and errorCount of the empty lifetime aggregate and records its timestamp as
lastErrorAt. -/
theorem error_event_accounting_witness :
    ((applyDelta sampleErrorEvent initStore).lifetime sampleErrorEvent.userId).totalRequests
      = (initStore.lifetime sampleErrorEvent.userId).totalRequests + 1 ∧
    ((applyDelta sampleErrorEvent initStore).lifetime sampleErrorEvent.userId).errorCount
      = (initStore.lifetime sampleErrorEvent.userId).errorCount + 1 ∧
    ((applyDelta sampleErrorEvent initStore).lifetime sampleErrorEvent.userId).lastErrorAt
      = some sampleErrorEvent.timestamp := by
  have h := error_event_accounting sampleErrorEvent initStore rfl rfl
  exact ⟨h.1, h.2.1, h.2.2.1⟩

/-- C8 counterexample: the raw-event audit path of the README is not
usage_events/day/requestId — at day 2026-01-11 and requestId req_abc_123 the
persisted path has an events segment between the day and the requestId. -/
theorem usage_event_path_counterexample :
    usageEventDocPath "2026-01-11" "req_abc_123"
      ≠ ["usage_events", "2026-01-11", "req_abc_123"] := by
  decide

/-- C8 amended: every raw UsageEvent audit record is persisted at
usage_events/day/events/requestId — the requestId keys the document inside
an events subcollection of the calendar-day document (Firestore requires
collection and document segments to alternate), and the final path segment
is exactly the requestId. -/
theorem usage_event_path_spec (day requestId : String) :
    usageEventDocPath day requestId
      = ["usage_events", day, "events", requestId] ∧
    (usageEventDocPath day requestId).getLast? = some requestId :=
  ⟨rfl, rfl⟩

end UsageTracking

namespace VideoExport

theorem runFalCalls_count_le (keys : List String) (st : FalState) :
    (runFalCalls keys st).configCount
      ≤ st.configCount + (if st.falConfigured then 0 else 1) := by
  induction keys generalizing st with
  | nil =>
    show st.configCount ≤ _
    split <;> omega
  | cons k ks ih =>
    show (runFalCalls ks (ensureFalConfigured k st)).configCount ≤ _
    have h := ih (ensureFalConfigured k st)
    by_cases hcfg : st.falConfigured = true
    · simpa [ensureFalConfigured, hcfg] using h
    · have hcfg2 : st.falConfigured = false := by simpa using hcfg
      by_cases hk : k = ""
      · simpa [ensureFalConfigured, hcfg2, hk] using h
      · simp [ensureFalConfigured, hcfg2, hk] at h ⊢
        omega

/-- C9: ensureFalConfigured is idempotent — over any sequence of calls in
one process fal.config is invoked at most once; a call made while already
configured returns the state unchanged; a call that sees an empty FAL key
changes nothing; and a call that sees a key while unconfigured performs the
single configuration. -/
theorem ensureFalConfigured_idempotent (keys : List String) (st : FalState)
    (key : String) :
    ((runFalCalls keys initFalState).configCount ≤ 1) ∧
    (st.falConfigured = true → ensureFalConfigured key st = st) ∧
    (key = "" → ensureFalConfigured key st = st) ∧
    (st.falConfigured = false → key ≠ "" →
      ensureFalConfigured key st
        = { falConfigured := true, configCount := st.configCount + 1 }) := by
  refine ⟨?_, fun h => by simp [ensureFalConfigured, h], fun h => ?_,
    fun h1 h2 => by simp [ensureFalConfigured, h1, h2]⟩
  · have h := runFalCalls_count_le keys initFalState
    simpa [initFalState] using h
  · simp [ensureFalConfigured, h]

/-- C9 witness: a concrete call sequence starting with an empty key
configures at most once; calls on an already-configured state and empty-key
calls are identities; the first keyed call on the fresh state configures. -/
theorem ensureFalConfigured_idempotent_witness :
    ((runFalCalls ["", "k1", "k2"] initFalState).configCount ≤ 1) ∧
    (ensureFalConfigured "k2" { falConfigured := true, configCount := 1 }
      = { falConfigured := true, configCount := 1 }) ∧
    (ensureFalConfigured "" initFalState = initFalState) ∧
    (ensureFalConfigured "k1" initFalState
      = { falConfigured := true, configCount := 1 }) := by
  have h1 := ensureFalConfigured_idempotent ["", "k1", "k2"]
    { falConfigured := true, configCount := 1 } "k2"
  have h2 := ensureFalConfigured_idempotent [] initFalState ""
  have h3 := ensureFalConfigured_idempotent [] initFalState "k1"
  exact ⟨h1.1, h1.2.1 rfl, h2.2.2.1 rfl, h3.2.2.2 rfl (by decide)⟩

/-- C10 counterexample: with a FAL key present, a successful person swap and
a throwing background-swap subscribe call, generateStyledVideoWithVeo
resolves with usedFallback = false and the person-swap output — not with
usedFallback = true and the reference URL as the claim requires for any
throwing subscribe call. -/
theorem video_fallback_counterexample :
    (generateStyledVideoWithVeo "k" true "bg" (FalOutcome.ok (some "person-url"))
        (FalOutcome.err "boom") "ref").usedFallback = false ∧
    (generateStyledVideoWithVeo "k" true "bg" (FalOutcome.ok (some "person-url"))
        (FalOutcome.err "boom") "ref").outputVideoUrl ≠ "ref" := by
  decide

/-- C10 amended: generateStyledVideoWithVeo never propagates a provider
failure — it is a total function into VideoResult.  When the FAL key is
missing or the person-swap subscribe call throws it resolves with
usedFallback = true and outputVideoUrl equal to the reference URL; when the
person swap succeeds and only the background-swap subscribe call throws, the
error is caught and it resolves with usedFallback = false and the
person-swap output. -/
theorem video_fallback_spec (falKey : String) (enableBg : Bool)
    (bgUrl : String) (personOutcome backgroundOutcome : FalOutcome)
    (ref : String) :
    (falKey = "" →
      generateStyledVideoWithVeo falKey enableBg bgUrl personOutcome
          backgroundOutcome ref
        = { outputVideoUrl := ref
            providerText := some "Fallback video URL used because FAL_KEY is missing."
            providerStatus := none, usedFallback := true }) ∧
    (∀ msg, falKey ≠ "" → personOutcome = FalOutcome.err msg →
      (generateStyledVideoWithVeo falKey enableBg bgUrl personOutcome
          backgroundOutcome ref).usedFallback = true ∧
      (generateStyledVideoWithVeo falKey enableBg bgUrl personOutcome
          backgroundOutcome ref).outputVideoUrl = ref) ∧
    (∀ personUrl msg, falKey ≠ "" →
      personOutcome = FalOutcome.ok (some personUrl) →
      backgroundOutcome = FalOutcome.err msg →
      (generateStyledVideoWithVeo falKey enableBg bgUrl personOutcome
          backgroundOutcome ref).usedFallback = false ∧
      (generateStyledVideoWithVeo falKey enableBg bgUrl personOutcome
          backgroundOutcome ref).outputVideoUrl = personUrl) := by
  refine ⟨fun hk => ?_, fun msg hk hp => ?_, fun personUrl msg hk hp hb => ?_⟩
  · simp [generateStyledVideoWithVeo, hk]
  · subst hp
    simp [generateStyledVideoWithVeo, hk]
  · subst hp; subst hb
    by_cases hbg : enableBg = true ∧ bgUrl ≠ ""
    · simp [generateStyledVideoWithVeo, hk, hbg]
    · simp [generateStyledVideoWithVeo, hk, hbg]

/-- C10 witness: a missing key resolves to the reference URL with
usedFallback true, and a throwing background swap after a successful person
swap resolves to the person-swap output with usedFallback false. -/
theorem video_fallback_spec_witness :
    (generateStyledVideoWithVeo "" true "bg" (FalOutcome.ok (some "p"))
        (FalOutcome.ok (some "b")) "ref"
      = { outputVideoUrl := "ref"
          providerText := some "Fallback video URL used because FAL_KEY is missing."
          providerStatus := none, usedFallback := true }) ∧
    ((generateStyledVideoWithVeo "k" true "bg" (FalOutcome.ok (some "p"))
        (FalOutcome.err "boom") "ref").usedFallback = false ∧
     (generateStyledVideoWithVeo "k" true "bg" (FalOutcome.ok (some "p"))
        (FalOutcome.err "boom") "ref").outputVideoUrl = "p") := by
  have h1 := video_fallback_spec "" true "bg" (FalOutcome.ok (some "p"))
    (FalOutcome.ok (some "b")) "ref"
  have h2 := video_fallback_spec "k" true "bg" (FalOutcome.ok (some "p"))
    (FalOutcome.err "boom") "ref"
  exact ⟨h1.1 rfl, h2.2.2 "p" "boom" (by decide) rfl rfl⟩

end VideoExport
